import Mathlib

/-! # TodoList component (src/Component/TodoList.js)

A shallow embedding of the React component `TodoList`: its five state cells, its
event handlers as state transformers, the expressions it renders, and the
properties of the specification checked against them.

Modelling conventions.

* A task is the record `{id, title, completed}` of the data model; `id` is an
  integer, `title` a string, `completed` a boolean.
* `editTaskId` is `null` or a task id: `Option Int`.
* The three asynchronous handlers (`fetchTodos`, `handleAddTask`,
  `handleUpdateTask`) await `fetch` and then `response.json()`.  A gateway value
  gives the outcome of each call; a handler is run to completion on the state it
  was started in and returns the new state together with the effects it
  performed (network requests, toasts, console output), in order.
* `fetch` rejects only when the request cannot complete; a response with any
  status code resolves.  `response.json()` rejects when the body does not decode.
-/

namespace TodoList

/-! ## Data model -/

/-- A task record as exchanged with the remote collection and kept in `tasks`. -/
structure Task where
  id : Int
  title : String
  completed : Bool
  deriving DecidableEq, Repr

/-- The five `useState` cells of the component. -/
structure State where
  tasks : List Task
  inputValue : String
  filter : String
  isLoading : Bool
  editTaskId : Option Int
  deriving DecidableEq, Repr

/-- The values passed to `useState` on mount. -/
def initialState : State :=
  { tasks := [], inputValue := "", filter := "all", isLoading := true, editTaskId := none }

/-! ## Remote gateway -/

/-- The HTTP requests the component issues. `list` is `GET /todos?_limit=4`,
`create` is `POST /todos` and `update` is `PUT /todos/:id`, the last two with the
JSON body `{title, completed}`. -/
inductive Request where
  | list (limit : Nat)
  | create (title : String) (completed : Bool)
  | update (id : Option Int) (title : String) (completed : Bool)
  deriving DecidableEq, Repr

/-- Outcome of `await fetch(...)` followed by `await response.json()`.
`networkError`: `fetch` rejected. `response status body`: `fetch` resolved with
that status code; `body = none` when `response.json()` rejects, otherwise the
decoded value. -/
inductive FetchOutcome (α : Type) where
  | networkError
  | response (status : Nat) (body : Option α)
  deriving DecidableEq, Repr

/-- The remote side, as seen by the component: the outcome of each call. -/
structure Gateway where
  list : FetchOutcome (List Task)
  create : String → Bool → FetchOutcome Task
  update : Option Int → String → Bool → FetchOutcome Task

/-- Observable effects of a handler, in program order. -/
inductive Effect where
  | request (r : Request)
  | consoleLog (msg : String)
  | toastSuccess (msg : String)
  | toastError (msg : String)
  deriving DecidableEq, Repr

/-! ## `String.prototype.trim` -/

/-- ECMAScript `WhiteSpace` and `LineTerminator` code points, the characters
removed by `String.prototype.trim`. -/
def isJsWhitespace (c : Char) : Bool :=
  let n := c.toNat
  n == 0x09 || n == 0x0A || n == 0x0B || n == 0x0C || n == 0x0D || n == 0x20 ||
  n == 0xA0 || n == 0x1680 || (0x2000 ≤ n && n ≤ 0x200A) || n == 0x2028 ||
  n == 0x2029 || n == 0x202F || n == 0x205F || n == 0x3000 || n == 0xFEFF

/-- The method `trim`: strips white space from both ends. -/
def jsTrim (s : String) : String :=
  ⟨((s.data.dropWhile isJsWhitespace).reverse.dropWhile isJsWhitespace).reverse⟩

/-! ## Handlers -/

/-- The function `fetchTodos` (lines 29-41), run by the mount effect. -/
def fetchTodos (g : Gateway) (s : State) : State × List Effect :=
  match g.list with
  | .response _ (some todos) =>
      ({ s with tasks := todos, isLoading := false }, [.request (.list 4)])
  | _ =>
      ({ s with isLoading := false },
        [.request (.list 4), .consoleLog "Error fetching todos:"])

/-- The function `handleInputChange` (lines 45-47). -/
def handleInputChange (value : String) (s : State) : State :=
  { s with inputValue := value }

/-- The function `handleAddTask` (lines 50-79). -/
def handleAddTask (g : Gateway) (s : State) : State × List Effect :=
  if jsTrim s.inputValue = "" then
    (s, [])
  else
    match g.create s.inputValue false with
    | .response _ (some addedTask) =>
        ({ s with tasks := s.tasks ++ [addedTask], inputValue := "" },
          [.request (.create s.inputValue false), .toastSuccess "Task added successfully"])
    | _ =>
        (s, [.request (.create s.inputValue false), .consoleLog "Error adding task:",
              .toastError "Error adding task"])

/-- The function `handleTaskCheckboxChange` (lines 84-90). -/
def handleTaskCheckboxChange (taskId : Int) (s : State) : State :=
  { s with tasks := s.tasks.map fun task =>
      if task.id = taskId then { task with completed := !task.completed } else task }

/-- The function `handleDeleteTask` (lines 96-99). -/
def handleDeleteTask (taskId : Int) (s : State) : State × List Effect :=
  ({ s with tasks := s.tasks.filter fun task => task.id ≠ taskId },
    [.toastSuccess "Task deleted successfully"])

/-- The function `handleEditTask` (lines 104-108). `tasks.find` yields `undefined`
when no task has the id, and reading `.title` of it throws: the result is `none`. -/
def handleEditTask (taskId : Int) (s : State) : Option State :=
  match s.tasks.find? fun task => task.id = taskId with
  | some taskToEdit => some { s with editTaskId := some taskId, inputValue := taskToEdit.title }
  | none => none

/-- The function `handleUpdateTask` (lines 113-153). The comparison
`task.id === editTaskId` is between a number and a number or `null`. -/
def handleUpdateTask (g : Gateway) (s : State) : State × List Effect :=
  if jsTrim s.inputValue = "" then
    (s, [])
  else
    match g.update s.editTaskId s.inputValue false with
    | .response _ (some updatedTaskData) =>
        ({ s with
            tasks := s.tasks.map fun task =>
              if some task.id = s.editTaskId then { task with title := updatedTaskData.title }
              else task
            inputValue := ""
            editTaskId := none },
          [.request (.update s.editTaskId s.inputValue false),
            .toastSuccess "Task updated successfully"])
    | _ =>
        (s, [.request (.update s.editTaskId s.inputValue false),
              .consoleLog "Error updating task:", .toastError "Error updating task"])

/-- The function `handleCompleteAll` (lines 157-161). -/
def handleCompleteAll (s : State) : State :=
  { s with tasks := s.tasks.map fun task => { task with completed := true } }

/-- The function `handleClearCompleted` (lines 167-169). -/
def handleClearCompleted (s : State) : State :=
  { s with tasks := s.tasks.filter fun task => !task.completed }

/-- The function `handleFilterChange` (lines 175-177). -/
def handleFilterChange (filterType : String) (s : State) : State :=
  { s with filter := filterType }

/-! ## Rendered expressions -/

/-- The constant `filteredTasks` (lines 183-192). -/
def filteredTasks (tasks : List Task) (filter : String) : List Task :=
  tasks.filter fun task =>
    if filter = "all" then true
    else if filter = "completed" then task.completed
    else if filter = "uncompleted" then !task.completed
    else true

/-- JavaScript truthiness of `editTaskId`: `null` and the number `0` are falsy. -/
def truthy : Option Int → Bool
  | none => false
  | some n => n != 0

/-- Which handler the submit button is bound to. -/
inductive SubmitHandler where
  | updateTask
  | addTask
  deriving DecidableEq, Repr

/-- The `onClick` of the submit button (line 218):
`editTaskId ? handleUpdateTask : handleAddTask`. -/
def submitHandler (s : State) : SubmitHandler :=
  if truthy s.editTaskId then .updateTask else .addTask

/-- The label of the submit button (line 220). -/
def submitLabel (s : State) : String :=
  if truthy s.editTaskId then "Update" else "Add"

/-- A click on the submit button: runs the handler bound by `submitHandler`. -/
def onSubmit (g : Gateway) (s : State) : State × List Effect :=
  match submitHandler s with
  | .updateTask => handleUpdateTask g s
  | .addTask => handleAddTask g s

/-- The text of `#c-count` (line 280). -/
def completedCount (s : State) : Nat :=
  (s.tasks.filter fun task => task.completed).length

/-- The text of `#tasks-counter` (line 286). -/
def totalCount (s : State) : Nat :=
  s.tasks.length

/-! ## Reference definitions, following the words of the specification -/

/-- The subsequence of `tasks` whose `completed` flag equals `b`, in the original
order. -/
def keepWhere (b : Bool) : List Task → List Task
  | [] => []
  | task :: rest => if task.completed = b then task :: keepWhere b rest else keepWhere b rest

/-- The view projector `project(tasks, filter)` of the specification: `completed`
keeps the completed tasks, `uncompleted` keeps the others, and `all` or any other
value passes everything. -/
def project (tasks : List Task) (filter : String) : List Task :=
  if filter = "completed" then keepWhere true tasks
  else if filter = "uncompleted" then keepWhere false tasks
  else tasks

/-- A buffer that is empty or consists only of white space. -/
def isBlank (s : String) : Bool :=
  s.data.all isJsWhitespace

/-- An outcome the specification calls an error: a network failure, a response
whose status is not 2xx, or a body that cannot be decoded. -/
def FetchOutcome.isError {α : Type} : FetchOutcome α → Bool
  | .networkError => true
  | .response status body => !(200 ≤ status && status < 300) || body.isNone

/-- An outcome on which `await fetch(...)` or `await response.json()` throws: a
network failure, or a body that cannot be decoded, whatever the status. -/
def FetchOutcome.throws {α : Type} : FetchOutcome α → Bool
  | .networkError => true
  | .response _ none => true
  | .response _ (some _) => false

/-- The editing session refers into the task sequence: when `editTaskId` is set,
some task of the list has that id. -/
def editSessionValid (s : State) : Bool :=
  match s.editTaskId with
  | none => true
  | some id => s.tasks.any fun task => task.id == id

/-! ## The component as a transition system -/

/-- The actions of the component: completion of the initial fetch, typing, and the
clicks bound in the rendered page. A click on the submit button is `add` or
`update`, whichever `submitHandler` selects. -/
inductive Action where
  | load (g : Gateway)
  | input (value : String)
  | add (g : Gateway)
  | toggle (taskId : Int)
  | delete (taskId : Int)
  | edit (taskId : Int)
  | update (g : Gateway)
  | completeAll
  | clearCompleted
  | setFilter (filterType : String)

/-- One action. `edit` is offered only on a task shown in the list, so it is
enabled only for the id of a task of `filteredTasks`. -/
def step (s : State) : Action → Option State
  | .load g => some (fetchTodos g s).1
  | .input value => some (handleInputChange value s)
  | .add g => some (handleAddTask g s).1
  | .toggle taskId => some (handleTaskCheckboxChange taskId s)
  | .delete taskId => some (handleDeleteTask taskId s).1
  | .edit taskId =>
      if (filteredTasks s.tasks s.filter).any (fun task => task.id == taskId) then
        handleEditTask taskId s
      else none
  | .update g => some (handleUpdateTask g s).1
  | .completeAll => some (handleCompleteAll s)
  | .clearCompleted => some (handleClearCompleted s)
  | .setFilter filterType => some (handleFilterChange filterType s)

/-- Whether an action leaves in the list a task carrying the id under edit. With
no editing session every action does. During a session on `id`: `delete` does
unless it is applied to `id` itself; `clearCompleted` does when some task with that
id is uncompleted; a completing `load` does when it fails (the list is kept) or
the list it returns holds a task with that id. No other action removes a task. -/
def Action.keepsEditedTask (s : State) : Action → Bool
  | .load g =>
      match s.editTaskId, g.list with
      | some id, .response _ (some todos) => todos.any fun task => task.id == id
      | _, _ => true
  | .delete taskId => s.editTaskId != some taskId
  | .clearCompleted =>
      match s.editTaskId with
      | none => true
      | some id => s.tasks.any fun task => task.id == id && !task.completed
  | _ => true

/-- The transition `step`, restricted to the actions that keep the task under
edit in the list. -/
def stepKeepingEditedTask (s : State) (a : Action) : Option State :=
  if a.keepsEditedTask s then step s a else none

/-- Runs a sequence of actions; `none` when one of them is not enabled. -/
def run (f : State → Action → Option State) (s : State) : List Action → Option State
  | [] => some s
  | a :: rest => (f s a).bind fun s' => run f s' rest

/-! ## Concrete inputs used in the evaluations below -/

/-- A remote side that answers every create call with status 500 and a JSON body
that decodes, and fails every other call at the network level. -/
def gatewayStatus500 : Gateway :=
  { list := .networkError
    create := fun _ _ => .response 500 (some ⟨101, "x", false⟩)
    update := fun _ _ _ => .networkError }

/-- A loaded page with an empty list and "x" typed in the input. -/
def stateTypedX : State :=
  { tasks := [], inputValue := "x", filter := "all", isLoading := false, editTaskId := none }

/-- A remote side whose list call fails at the network level, whose create call
returns status 500 with a body that is not JSON, and whose update call returns
status 200 with a body that is not JSON. -/
def gatewayThrowing : Gateway :=
  { list := .networkError
    create := fun _ _ => .response 500 none
    update := fun _ _ _ => .response 200 none }

/-- A loaded page with two tasks, the second under edit with a new title typed. -/
def stateEditingThree : State :=
  { tasks := [⟨2, "B", false⟩, ⟨3, "Old", true⟩], inputValue := "New title",
    filter := "all", isLoading := false, editTaskId := some 3 }

/-- A remote side whose initial list is a single task with id 0. -/
def gatewayIdZero : Gateway :=
  { list := .response 200 (some [⟨0, "A", false⟩])
    create := fun title completed => .response 201 (some ⟨201, title, completed⟩)
    update := fun id title completed => .response 200 (some ⟨id.getD 0, title, completed⟩) }

/-- A remote side whose initial list is the two tasks of the scenario of the
specification. -/
def gatewayTwoTasks : Gateway :=
  { list := .response 200 (some [⟨1, "A", false⟩, ⟨2, "B", true⟩])
    create := fun title completed => .response 201 (some ⟨201, title, completed⟩)
    update := fun id title completed => .response 200 (some ⟨id.getD 0, title, completed⟩) }

/-- A remote side whose initial list is a single task with id 1. -/
def gatewayOneTask : Gateway :=
  { list := .response 200 (some [⟨1, "A", false⟩])
    create := fun title completed => .response 201 (some ⟨201, title, completed⟩)
    update := fun id title completed => .response 200 (some ⟨id.getD 0, title, completed⟩) }

/-! ## Helper lemmas -/

theorem keepWhere_eq_filter (b : Bool) (tasks : List Task) :
    keepWhere b tasks = tasks.filter fun task => task.completed == b := by
  induction tasks with
  | nil => rfl
  | cons task rest ih =>
    by_cases h : task.completed = b
    · simp [keepWhere, List.filter_cons, h, ih]
    · simp [keepWhere, List.filter_cons, h, ih]

theorem jsTrim_eq_empty_iff (s : String) : jsTrim s = "" ↔ isBlank s = true := by
  unfold jsTrim isBlank
  constructor
  · intro h
    have h1 : ((s.data.dropWhile isJsWhitespace).reverse.dropWhile isJsWhitespace).reverse = [] :=
      congrArg String.data h
    rw [List.reverse_eq_nil_iff, List.dropWhile_eq_nil_iff] at h1
    rw [List.all_eq_true]
    intro c hc
    by_contra hn
    have h2 : s.data.dropWhile isJsWhitespace ≠ [] := by
      rw [Ne, List.dropWhile_eq_nil_iff]
      intro hall
      exact hn (hall c hc)
    have h3 := List.head_dropWhile_not isJsWhitespace s.data h2
    have h4 := h1 _ (List.mem_reverse.mpr (List.head_mem h2))
    simp [h4] at h3
  · intro h
    rw [List.all_eq_true] at h
    have h1 : s.data.dropWhile isJsWhitespace = [] :=
      List.dropWhile_eq_nil_iff.mpr h
    simp [h1]

theorem editSessionValid_iff (s : State) :
    editSessionValid s = true ↔
      ∀ id, s.editTaskId = some id → ∃ task ∈ s.tasks, task.id = id := by
  unfold editSessionValid
  cases h : s.editTaskId with
  | none => simp
  | some id => simp

theorem editSessionValid_of_none (s : State) (h : s.editTaskId = none) :
    editSessionValid s = true := by
  simp [editSessionValid, h]

/-- The invariant survives any change of the list that keeps every id present
and leaves `editTaskId` alone. -/
theorem editSessionValid_of_ids_kept (s s' : State) (hEdit : s'.editTaskId = s.editTaskId)
    (hIds : ∀ task ∈ s.tasks, ∃ task' ∈ s'.tasks, task'.id = task.id)
    (h : editSessionValid s = true) : editSessionValid s' = true := by
  rw [editSessionValid_iff] at h ⊢
  intro id hid
  rw [hEdit] at hid
  obtain ⟨task, hmem, htask⟩ := h id hid
  obtain ⟨task', hmem', htask'⟩ := hIds task hmem
  exact ⟨task', hmem', htask'.trans htask⟩

theorem fetchTodos_editTaskId (g : Gateway) (s : State) :
    (fetchTodos g s).1.editTaskId = s.editTaskId := by
  unfold fetchTodos
  split <;> rfl

theorem handleAddTask_editSessionValid (g : Gateway) (s : State)
    (h : editSessionValid s = true) : editSessionValid (handleAddTask g s).1 = true := by
  unfold handleAddTask
  split
  · exact h
  · split
    · refine editSessionValid_of_ids_kept s _ rfl ?_ h
      intro task hmem
      exact ⟨task, by simp [hmem], rfl⟩
    · exact h

theorem handleUpdateTask_editSessionValid (g : Gateway) (s : State)
    (h : editSessionValid s = true) : editSessionValid (handleUpdateTask g s).1 = true := by
  unfold handleUpdateTask
  split
  · exact h
  · split
    · exact editSessionValid_of_none _ rfl
    · exact h

theorem handleEditTask_editSessionValid (taskId : Int) (s s' : State)
    (h : handleEditTask taskId s = some s') : editSessionValid s' = true := by
  unfold handleEditTask at h
  split at h
  · next taskToEdit hfind =>
    have hs : s' = { s with editTaskId := some taskId, inputValue := taskToEdit.title } := by
      simpa using h.symm
    rw [editSessionValid_iff, hs]
    intro id hid
    have hid' : taskId = id := by simpa using hid
    refine ⟨taskToEdit, List.mem_of_find?_eq_some hfind, ?_⟩
    have := List.find?_some hfind
    simp at this
    exact this.trans hid'
  · simp at h

/-- Every enabled action of `stepKeepingEditedTask` preserves the invariant. -/
theorem stepKeepingEditedTask_editSessionValid (s s' : State) (a : Action)
    (h : editSessionValid s = true) (hStep : stepKeepingEditedTask s a = some s') :
    editSessionValid s' = true := by
  unfold stepKeepingEditedTask at hStep
  split at hStep
  · next hGuard =>
    cases a with
    | load g =>
      simp only [step, Option.some.injEq] at hStep
      subst hStep
      rw [editSessionValid_iff] at h ⊢
      intro id hid
      rw [fetchTodos_editTaskId] at hid
      unfold fetchTodos
      cases hg : g.list with
      | networkError => exact h id hid
      | response status body =>
        cases body with
        | none => exact h id hid
        | some todos =>
          simp only [Action.keepsEditedTask, hid, hg] at hGuard
          simpa using hGuard
    | input value =>
      simp only [step, Option.some.injEq] at hStep
      subst hStep
      exact editSessionValid_of_ids_kept s _ rfl (fun task hmem => ⟨task, hmem, rfl⟩) h
    | add g =>
      simp only [step, Option.some.injEq] at hStep
      subst hStep
      exact handleAddTask_editSessionValid g s h
    | toggle taskId =>
      simp only [step, Option.some.injEq] at hStep
      subst hStep
      refine editSessionValid_of_ids_kept s _ rfl ?_ h
      intro task hmem
      refine ⟨_, List.mem_map_of_mem _ hmem, ?_⟩
      split <;> rfl
    | delete taskId =>
      simp only [step, Option.some.injEq] at hStep
      subst hStep
      rw [editSessionValid_iff] at h ⊢
      intro id hid
      have hid' : s.editTaskId = some id := hid
      obtain ⟨task, hmem, htask⟩ := h id hid'
      have hne : id ≠ taskId := by
        intro heq
        simp [Action.keepsEditedTask, hid', heq] at hGuard
      refine ⟨task, ?_, htask⟩
      simp [handleDeleteTask, hmem, htask, hne]
    | edit taskId =>
      simp only [step] at hStep
      split at hStep
      · exact handleEditTask_editSessionValid taskId s s' hStep
      · simp at hStep
    | update g =>
      simp only [step, Option.some.injEq] at hStep
      subst hStep
      exact handleUpdateTask_editSessionValid g s h
    | completeAll =>
      simp only [step, Option.some.injEq] at hStep
      subst hStep
      refine editSessionValid_of_ids_kept s _ rfl ?_ h
      intro task hmem
      exact ⟨_, List.mem_map_of_mem _ hmem, rfl⟩
    | clearCompleted =>
      simp only [step, Option.some.injEq] at hStep
      subst hStep
      rw [editSessionValid_iff]
      intro id hid
      have hid' : s.editTaskId = some id := hid
      simp only [Action.keepsEditedTask, hid', List.any_eq_true, Bool.and_eq_true,
        beq_iff_eq, Bool.not_eq_true'] at hGuard
      obtain ⟨task, hmem, htask, hopen⟩ := hGuard
      refine ⟨task, ?_, htask⟩
      simp [handleClearCompleted, hmem, hopen]
    | setFilter filterType =>
      simp only [step, Option.some.injEq] at hStep
      subst hStep
      exact editSessionValid_of_ids_kept s _ rfl (fun task hmem => ⟨task, hmem, rfl⟩) h
  · simp at hStep

theorem run_stepKeepingEditedTask_editSessionValid (actions : List Action) :
    ∀ s s' : State, editSessionValid s = true →
      run stepKeepingEditedTask s actions = some s' → editSessionValid s' = true := by
  induction actions with
  | nil =>
    intro s s' h hRun
    simp only [run, Option.some.injEq] at hRun
    subst hRun
    exact h
  | cons a rest ih =>
    intro s s' h hRun
    simp only [run] at hRun
    cases hStep : stepKeepingEditedTask s a with
    | none => simp [hStep] at hRun
    | some mid =>
      rw [hStep] at hRun
      exact ih mid s' (stepKeepingEditedTask_editSessionValid s mid a h hStep) hRun

/-- The restriction of `stepKeepingEditedTask` is forced: an action it disables,
when taken with `step`, leaves `editTaskId` set to an id that no task carries. -/
theorem step_breaks_editSessionValid (s s' : State) (a : Action)
    (hGuard : a.keepsEditedTask s = false) (hStep : step s a = some s') :
    editSessionValid s' = false := by
  cases a with
  | load g =>
    simp only [step, Option.some.injEq] at hStep
    subst hStep
    cases he : s.editTaskId with
    | none => simp [Action.keepsEditedTask, he] at hGuard
    | some id =>
      cases hg : g.list with
      | networkError => simp [Action.keepsEditedTask, he, hg] at hGuard
      | response status body =>
        cases body with
        | none => simp [Action.keepsEditedTask, he, hg] at hGuard
        | some todos =>
          simp only [Action.keepsEditedTask, he, hg] at hGuard
          simp only [editSessionValid, fetchTodos, hg, he]
          exact hGuard
  | delete taskId =>
    simp only [step, Option.some.injEq] at hStep
    subst hStep
    have he : s.editTaskId = some taskId := by
      simpa [Action.keepsEditedTask] using hGuard
    simp [editSessionValid, handleDeleteTask, he]
  | clearCompleted =>
    simp only [step, Option.some.injEq] at hStep
    subst hStep
    cases he : s.editTaskId with
    | none => simp [Action.keepsEditedTask, he] at hGuard
    | some id =>
      simp only [Action.keepsEditedTask, he] at hGuard
      simp only [editSessionValid, handleClearCompleted, he]
      rw [Bool.eq_false_iff] at hGuard ⊢
      intro hany
      apply hGuard
      simp only [List.any_eq_true, List.mem_filter, beq_iff_eq, Bool.and_eq_true] at hany ⊢
      obtain ⟨task, ⟨hmem, hopen⟩, htask⟩ := hany
      exact ⟨task, hmem, htask, hopen⟩
  | input value => simp [Action.keepsEditedTask] at hGuard
  | add g => simp [Action.keepsEditedTask] at hGuard
  | toggle taskId => simp [Action.keepsEditedTask] at hGuard
  | edit taskId => simp [Action.keepsEditedTask] at hGuard
  | update g => simp [Action.keepsEditedTask] at hGuard
  | completeAll => simp [Action.keepsEditedTask] at hGuard
  | setFilter filterType => simp [Action.keepsEditedTask] at hGuard

/-- The submit button is bound to the update handler exactly when `editTaskId`
holds a non-zero id. -/
theorem submitHandler_eq_updateTask_iff (s : State) :
    submitHandler s = .updateTask ↔ ∃ id, s.editTaskId = some id ∧ id ≠ 0 := by
  unfold submitHandler
  cases h : s.editTaskId with
  | none => simp [truthy]
  | some id =>
    by_cases h0 : id = 0
    · simp [truthy, h0]
    · simp [truthy, h0]

/-! ## Properties -/

/-- C1: for every task list and filter value, `filteredTasks` is the reference
projection: the completed tasks in order for "completed", the uncompleted tasks in
order for "uncompleted", and the whole list for "all" and any other value. -/
theorem filteredTasks_eq_project (tasks : List Task) (filter : String) :
    filteredTasks tasks filter = project tasks filter := by
  unfold filteredTasks project
  by_cases hc : filter = "completed"
  · subst hc
    simp [keepWhere_eq_filter]
  · by_cases hu : filter = "uncompleted"
    · subst hu
      simp [keepWhere_eq_filter]
    · simp [hc, hu]

/-- C3: with a non-blank input buffer and a create call that returns the task
record `addedTask`, `handleAddTask` leaves the list as the previous list followed by
exactly that record, and the input buffer empty. -/
theorem handleAddTask_success_appends (g : Gateway) (s : State) (status : Nat)
    (addedTask : Task) (hInput : isBlank s.inputValue = false)
    (hCall : g.create s.inputValue false = .response status (some addedTask)) :
    (handleAddTask g s).1.tasks = s.tasks ++ [addedTask] ∧
      (handleAddTask g s).1.inputValue = "" := by
  have hTrim : ¬ jsTrim s.inputValue = "" := by
    rw [jsTrim_eq_empty_iff, hInput]
    decide
  simp [handleAddTask, hTrim, hCall]

/-- C6: with an empty or white-space-only input buffer, `handleAddTask` performs no
effect at all, so no network call, and returns the state it was given. -/
theorem handleAddTask_blank_noop (g : Gateway) (s : State)
    (hInput : isBlank s.inputValue = true) :
    handleAddTask g s = (s, []) := by
  have hTrim : jsTrim s.inputValue = "" := (jsTrim_eq_empty_iff _).mpr hInput
  simp [handleAddTask, hTrim]

/-- C7: toggling the same id twice with `handleTaskCheckboxChange` gives back the
original state, hence the original task list. -/
theorem handleTaskCheckboxChange_twice (taskId : Int) (s : State) :
    handleTaskCheckboxChange taskId (handleTaskCheckboxChange taskId s) = s := by
  cases s with
  | mk tasks inputValue filter isLoading editTaskId =>
    simp only [handleTaskCheckboxChange, List.map_map, State.mk.injEq, and_true, true_and]
    apply List.map_id''
    intro task
    by_cases h : task.id = taskId
    · cases task
      simp_all
    · simp [h]

/-- C8: after `handleClearCompleted` the "completed" view is empty, and the list is
the subsequence of the original tasks with `completed = false`, in order. -/
theorem handleClearCompleted_spec (s : State) :
    filteredTasks (handleClearCompleted s).tasks "completed" = [] ∧
      (handleClearCompleted s).tasks = keepWhere false s.tasks := by
  constructor
  · simp [filteredTasks, handleClearCompleted, List.filter_filter]
  · simp [handleClearCompleted, keepWhere_eq_filter]

/-- C9: the displayed counts do not depend on the filter: under any two filter
values `completedCount` is the number of completed tasks of the full list and
`totalCount` is the length of the full list. -/
theorem counts_independent_of_filter (s : State) (f₁ f₂ : String) :
    completedCount (handleFilterChange f₁ s) = completedCount (handleFilterChange f₂ s) ∧
      totalCount (handleFilterChange f₁ s) = totalCount (handleFilterChange f₂ s) ∧
      completedCount (handleFilterChange f₁ s) =
        s.tasks.countP (fun task => task.completed = true) ∧
      totalCount (handleFilterChange f₁ s) = s.tasks.length := by
  simp [completedCount, totalCount, handleFilterChange, List.countP_eq_length_filter]

/-- C4: after a successful update of the task being edited, the list has the same
length and order; a task whose id is the edited id gets the title of the response
and keeps its id and its completed flag; every other task is unchanged. -/
theorem handleUpdateTask_success_title_only (g : Gateway) (s : State) (editedId : Int)
    (status : Nat) (updatedTaskData : Task) (hEdit : s.editTaskId = some editedId)
    (hInput : isBlank s.inputValue = false)
    (hCall : g.update (some editedId) s.inputValue false =
      .response status (some updatedTaskData)) :
    (handleUpdateTask g s).1.tasks.length = s.tasks.length ∧
      ∀ (i : Nat) (task : Task), s.tasks[i]? = some task →
        (handleUpdateTask g s).1.tasks[i]? =
          some (if task.id = editedId then
            { id := task.id, title := updatedTaskData.title, completed := task.completed }
          else task) := by
  have hTrim : ¬ jsTrim s.inputValue = "" := by
    rw [jsTrim_eq_empty_iff, hInput]
    decide
  constructor
  · simp [handleUpdateTask, hTrim, hEdit, hCall]
  · intro i task hi
    simp only [handleUpdateTask, hTrim, hEdit, hCall, if_false, List.getElem?_map, hi,
      Option.map_some', Option.some.injEq]

/-- Witness for C3: the scenario of the specification, `create("Buy milk")`
answered with `{id: 5, title: "Buy milk", completed: false}`. -/
theorem handleAddTask_success_appends_witness :
    (handleAddTask
        { list := .networkError
          create := fun title completed => .response 201 (some ⟨5, title, completed⟩)
          update := fun _ _ _ => .networkError }
        { tasks := [⟨1, "A", false⟩], inputValue := "Buy milk", filter := "all",
          isLoading := false, editTaskId := none }).1.tasks
        = [⟨1, "A", false⟩] ++ [⟨5, "Buy milk", false⟩] ∧
      (handleAddTask
        { list := .networkError
          create := fun title completed => .response 201 (some ⟨5, title, completed⟩)
          update := fun _ _ _ => .networkError }
        { tasks := [⟨1, "A", false⟩], inputValue := "Buy milk", filter := "all",
          isLoading := false, editTaskId := none }).1.inputValue = "" :=
  handleAddTask_success_appends _ _ 201 ⟨5, "Buy milk", false⟩ (by decide) rfl

/-- Witness for C6: a buffer holding a space, a tab and a no-break space. -/
theorem handleAddTask_blank_noop_witness :
    handleAddTask
        { list := .networkError
          create := fun title completed => .response 201 (some ⟨5, title, completed⟩)
          update := fun _ _ _ => .networkError }
        { tasks := [⟨1, "A", false⟩], inputValue := " \t\u00a0", filter := "all",
          isLoading := false, editTaskId := none }
      = ({ tasks := [⟨1, "A", false⟩], inputValue := " \t\u00a0", filter := "all",
           isLoading := false, editTaskId := none }, []) :=
  handleAddTask_blank_noop _ _ (by decide)

/-- Witness for C4: the scenario of the specification, `update(3, "New title")` on
a completed task with id 3. -/
theorem handleUpdateTask_success_title_only_witness :
    (handleUpdateTask
        { list := .networkError
          create := fun _ _ => .networkError
          update := fun _ title completed => .response 200 (some ⟨3, title, completed⟩) }
        { tasks := [⟨2, "B", false⟩, ⟨3, "Old", true⟩], inputValue := "New title",
          filter := "all", isLoading := false, editTaskId := some 3 }).1.tasks.length = 2 ∧
      ∀ (i : Nat) (task : Task),
        ([⟨2, "B", false⟩, ⟨3, "Old", true⟩] : List Task)[i]? = some task →
        (handleUpdateTask
          { list := .networkError
            create := fun _ _ => .networkError
            update := fun _ title completed => .response 200 (some ⟨3, title, completed⟩) }
          { tasks := [⟨2, "B", false⟩, ⟨3, "Old", true⟩], inputValue := "New title",
            filter := "all", isLoading := false, editTaskId := some 3 }).1.tasks[i]? =
          some (if task.id = 3 then
            { id := task.id, title := "New title", completed := task.completed }
          else task) :=
  handleUpdateTask_success_title_only _ _ 3 200 ⟨3, "New title", false⟩ rfl (by decide) rfl

/-- C2, as stated, fails: a create call answered with status 500 and a body that
decodes is an error outcome, yet `handleAddTask` appends the body to the list and
clears the input buffer. -/
theorem error_status_with_body_is_applied :
    (gatewayStatus500.create stateTypedX.inputValue false).isError = true ∧
      (handleAddTask gatewayStatus500 stateTypedX).1.tasks ≠ stateTypedX.tasks ∧
      (handleAddTask gatewayStatus500 stateTypedX).1.inputValue ≠ stateTypedX.inputValue ∧
      (handleAddTask gatewayStatus500 stateTypedX).1 =
        { tasks := [⟨101, "x", false⟩], inputValue := "", filter := "all",
          isLoading := false, editTaskId := none } := by
  have hTrim : ¬ jsTrim "x" = "" := by decide
  have hPost : (handleAddTask gatewayStatus500 stateTypedX).1 =
      { tasks := [⟨101, "x", false⟩], inputValue := "", filter := "all",
        isLoading := false, editTaskId := none } := by
    simp [handleAddTask, gatewayStatus500, stateTypedX, hTrim]
  refine ⟨rfl, ?_, ?_, hPost⟩
  · rw [hPost]
    simp [stateTypedX]
  · rw [hPost]
    simp [stateTypedX]

/-- C2, amended: when `fetch` or the decoding of the body throws (network failure,
or a body that cannot be decoded, with any status), each of the three handlers
leaves the task list and the input buffer as they were. -/
theorem thrown_error_keeps_tasks_and_input (g : Gateway) (s : State) :
    (g.list.throws = true →
        (fetchTodos g s).1.tasks = s.tasks ∧ (fetchTodos g s).1.inputValue = s.inputValue) ∧
      ((g.create s.inputValue false).throws = true →
        (handleAddTask g s).1.tasks = s.tasks ∧
          (handleAddTask g s).1.inputValue = s.inputValue) ∧
      ((g.update s.editTaskId s.inputValue false).throws = true →
        (handleUpdateTask g s).1.tasks = s.tasks ∧
          (handleUpdateTask g s).1.inputValue = s.inputValue) := by
  refine ⟨?_, ?_, ?_⟩
  · intro h
    unfold fetchTodos
    cases hg : g.list with
    | networkError => simp
    | response status body =>
      cases body with
      | none => simp
      | some todos => simp [hg, FetchOutcome.throws] at h
  · intro h
    unfold handleAddTask
    by_cases hTrim : jsTrim s.inputValue = ""
    · simp [hTrim]
    · cases hg : g.create s.inputValue false with
      | networkError => simp [hTrim]
      | response status body =>
        cases body with
        | none => simp [hTrim]
        | some addedTask => simp [hg, FetchOutcome.throws] at h
  · intro h
    unfold handleUpdateTask
    by_cases hTrim : jsTrim s.inputValue = ""
    · simp [hTrim]
    · cases hg : g.update s.editTaskId s.inputValue false with
      | networkError => simp [hTrim]
      | response status body =>
        cases body with
        | none => simp [hTrim]
        | some updatedTaskData => simp [hg, FetchOutcome.throws] at h

/-- Witness for the amended C2: a failed list call, a create call and an update
call whose bodies do not decode, on a page with a task under edit. -/
theorem thrown_error_keeps_tasks_and_input_witness :
    ((fetchTodos gatewayThrowing stateEditingThree).1.tasks = stateEditingThree.tasks ∧
        (fetchTodos gatewayThrowing stateEditingThree).1.inputValue =
          stateEditingThree.inputValue) ∧
      ((handleAddTask gatewayThrowing stateEditingThree).1.tasks = stateEditingThree.tasks ∧
        (handleAddTask gatewayThrowing stateEditingThree).1.inputValue =
          stateEditingThree.inputValue) ∧
      ((handleUpdateTask gatewayThrowing stateEditingThree).1.tasks = stateEditingThree.tasks ∧
        (handleUpdateTask gatewayThrowing stateEditingThree).1.inputValue =
          stateEditingThree.inputValue) :=
  ⟨(thrown_error_keeps_tasks_and_input gatewayThrowing stateEditingThree).1 rfl,
    (thrown_error_keeps_tasks_and_input gatewayThrowing stateEditingThree).2.1 rfl,
    (thrown_error_keeps_tasks_and_input gatewayThrowing stateEditingThree).2.2 rfl⟩

/-- C5 fails on the code for the id 0: after the initial load of a task with id 0
and a click on its edit button, `editTaskId` holds 0, yet the submit button is
bound to `handleAddTask` and labelled "Add", and a click on it posts a new task
instead of updating the edited one. -/
theorem submit_routes_to_add_when_editing_id_zero :
    run step initialState [.load gatewayIdZero, .edit 0] =
        some { tasks := [⟨0, "A", false⟩], inputValue := "A", filter := "all",
               isLoading := false, editTaskId := some 0 } ∧
      submitHandler { tasks := [⟨0, "A", false⟩], inputValue := "A", filter := "all",
                      isLoading := false, editTaskId := some 0 } = .addTask ∧
      submitLabel { tasks := [⟨0, "A", false⟩], inputValue := "A", filter := "all",
                    isLoading := false, editTaskId := some 0 } = "Add" ∧
      onSubmit gatewayIdZero { tasks := [⟨0, "A", false⟩], inputValue := "A", filter := "all",
                               isLoading := false, editTaskId := some 0 } =
        ({ tasks := [⟨0, "A", false⟩, ⟨201, "A", false⟩], inputValue := "", filter := "all",
           isLoading := false, editTaskId := some 0 },
          [.request (.create "A" false), .toastSuccess "Task added successfully"]) := by
  have hTrim : ¬ jsTrim "A" = "" := by decide
  refine ⟨?_, rfl, rfl, ?_⟩
  · simp [run, step, fetchTodos, gatewayIdZero, initialState, filteredTasks, handleEditTask]
  · simp [onSubmit, submitHandler, truthy, handleAddTask, gatewayIdZero, hTrim]

/-- C10, as stated, fails: load a task with id 1, start editing it, delete it. The
state reached has `editTaskId = 1` and an empty task list. -/
theorem delete_leaves_edit_session_dangling :
    run step initialState [.load gatewayOneTask, .edit 1, .delete 1] =
        some { tasks := [], inputValue := "A", filter := "all", isLoading := false,
               editTaskId := some 1 } ∧
      editSessionValid { tasks := [], inputValue := "A", filter := "all", isLoading := false,
                         editTaskId := some 1 } = false := by
  constructor
  · simp [run, step, fetchTodos, gatewayOneTask, initialState, filteredTasks, handleEditTask,
      handleDeleteTask]
  · rfl

/-- C10, amended: in every state reached from the initial state by a sequence of
actions that never removes the task under edit (no delete of the id under edit, no
clear completed while every task with that id is completed, no load replacing the
list by one without that id), a present `editTaskId` is the id of some task of the
list. Every other action, and delete, clear completed and load in all other
situations, is unrestricted. -/
theorem edit_session_refers_to_task (actions : List Action) (s : State)
    (hRun : run stepKeepingEditedTask initialState actions = some s) :
    ∀ id, s.editTaskId = some id → ∃ task ∈ s.tasks, task.id = id :=
  (editSessionValid_iff s).mp
    (run_stepKeepingEditedTask_editSessionValid actions initialState s rfl hRun)

/-- Witness for the amended C10: load two tasks, edit the second, delete the first
during the session, toggle the edited task, clear the completed tasks, add a task
and change the filter. -/
theorem edit_session_refers_to_task_witness :
    run stepKeepingEditedTask initialState
        [.load gatewayTwoTasks, .edit 2, .delete 1, .toggle 2, .clearCompleted,
          .add gatewayTwoTasks, .setFilter "completed"] =
        some { tasks := [⟨2, "B", false⟩, ⟨201, "B", false⟩], inputValue := "",
               filter := "completed", isLoading := false, editTaskId := some 2 } ∧
      ∀ id, (some 2 : Option Int) = some id →
        ∃ task ∈ ([⟨2, "B", false⟩, ⟨201, "B", false⟩] : List Task), task.id = id :=
  have hRun : run stepKeepingEditedTask initialState
        [.load gatewayTwoTasks, .edit 2, .delete 1, .toggle 2, .clearCompleted,
          .add gatewayTwoTasks, .setFilter "completed"] =
        some { tasks := [⟨2, "B", false⟩, ⟨201, "B", false⟩], inputValue := "",
               filter := "completed", isLoading := false, editTaskId := some 2 } := by
    have hTrim : ¬ jsTrim "B" = "" := by decide
    simp [run, stepKeepingEditedTask, step, Action.keepsEditedTask, fetchTodos,
      gatewayTwoTasks, initialState, filteredTasks, handleEditTask, handleDeleteTask,
      handleTaskCheckboxChange, handleClearCompleted, handleAddTask, handleFilterChange, hTrim]
  ⟨hRun, edit_session_refers_to_task _ _ hRun⟩

end TodoList
